import Mathlib

/-!
Shallow embedding of the trivia API backend (src/backend/flaskr/__init__.py)
and proofs about the behaviour its specification claims.

JSON values are modelled by an inductive `JVal`; each Flask view function
becomes a Lean function from the store state and the parsed request data to
a `Response` (status code plus optional JSON body).  The database session is
modelled as a `Store` value threaded through the handlers; the external
store operations that can fail (SQLAlchemy insert/delete) are passed in as
outcome parameters.  `random.choice` is modelled by an externally supplied
draw `k : Nat`.
-/

namespace Trivia

/-- JSON values exchanged over the API (Python's parse of a request body). -/
inductive JVal : Type
  | null
  | jb (b : Bool)
  | jn (n : Int)
  | js (s : String)
  | jarr (elems : List JVal)
  | jobj (fields : List (String × JVal))

/-- Python dict lookup `d.get(k, None)` restricted to the key being present:
returns the first value bound to `k`, or `none` when the key is absent. -/
def getKey (fields : List (String × JVal)) (k : String) : Option JVal :=
  (fields.find? (fun kv => kv.1 == k)).map (fun kv => kv.2)

/-- Whether a Python expression `d.get(k, None)` produced `None`: the key is
absent, or its JSON value is `null`. -/
def isNoneVal : Option JVal → Bool
  | none => true
  | some .null => true
  | _ => false

/-- Python dict lookup `d.get(k, None)` as a value: `null` when absent. -/
def pyGetD (fields : List (String × JVal)) (k : String) : JVal :=
  (getKey fields k).getD .null

/-- A row of the `categories` table. -/
structure Category where
  id : Int
  type : String
  deriving DecidableEq

/-- A row of the `questions` table. -/
structure Question where
  id : Int
  question : String
  answer : String
  category_id : Int
  difficulty : Int
  deriving DecidableEq

/-- The relational store: the two tables the endpoints read and write. -/
structure Store where
  categories : List Category
  questions : List Question
  deriving DecidableEq

/-- Modelled from the spec: `Category.format` lives in `models.py`, which is
not under src/; per the spec a category serializes as its `{id, type}`. -/
def Category.format (c : Category) : JVal :=
  .jobj [("id", .jn c.id), ("type", .js c.type)]

/-- Modelled from the spec: `Question.format` lives in `models.py`, which is
not under src/; per the spec a question serializes as its full record. -/
def Question.format (q : Question) : JVal :=
  .jobj [("id", .jn q.id), ("question", .js q.question), ("answer", .js q.answer),
         ("category_id", .jn q.category_id), ("difficulty", .jn q.difficulty)]

/-- An HTTP response: status code and optional JSON body (`none` models an
empty body, as in the 204 delete response). -/
structure Response where
  status : Nat
  body : Option JVal

/-- Look a key up in a response's JSON object body. -/
def respField (r : Response) (k : String) : Option JVal :=
  match r.body with
  | some (.jobj fields) => getKey fields k
  | _ => none

/-- Default Werkzeug description used by `abort(400)`. -/
def badRequestDescription : String :=
  "The browser (or proxy) sent a request that this server could not understand."

/-- Default Werkzeug description used by `abort(404)`. -/
def notFoundDescription : String :=
  "The requested URL was not found on the server. If you entered the URL manually please check your spelling and try again."

/-- Default Werkzeug description carried by an internal server error. -/
def internalErrorDescription : String :=
  "The server encountered an internal error and was unable to complete your request. Either the server is overloaded or there is an error in the application."

/-- Response rendered by the `@app.errorhandler(400)` handler. -/
def err400 : Response :=
  ⟨400, some (.jobj [("success", .jb false), ("status", .jn 400),
                     ("message", .js badRequestDescription)])⟩

/-- Response rendered by the `@app.errorhandler(404)` handler. -/
def err404 : Response :=
  ⟨404, some (.jobj [("success", .jb false), ("status", .jn 404),
                     ("message", .js notFoundDescription)])⟩

/-- Response rendered by the `@app.errorhandler(422)` handler (fixed text). -/
def err422 : Response :=
  ⟨422, some (.jobj [("success", .jb false), ("status", .jn 422),
                     ("message", .js "The json that was sent did not include a proper field. Please refer to documentation.")])⟩

/-- Response rendered by the `@app.errorhandler(500)` handler, reached when a
view raises an uncaught exception (e.g. an AttributeError). -/
def err500 : Response :=
  ⟨500, some (.jobj [("success", .jb false), ("status", .jn 500),
                     ("message", .js internalErrorDescription)])⟩

/-- Page size of the question listing (`QUESTIONS_PER_PAGE`). -/
def QUESTIONS_PER_PAGE : Nat := 10

/-- `GET /api/v1/categories`: list every category. -/
def get_categories (s : Store) : Response × Store :=
  (⟨200, some (.jobj [("categories", .jarr (s.categories.map Category.format)),
                      ("success", .jb true)])⟩, s)

/-- Number of pages flask-sqlalchemy's paginate reports for `total` rows:
`ceil(total / QUESTIONS_PER_PAGE)`. -/
def pagesOf (total : Nat) : Nat :=
  (total + QUESTIONS_PER_PAGE - 1) / QUESTIONS_PER_PAGE

/-- `GET /api/v1/questions?page=N`: paginated question list.  Paginate is
called with `error_out=False`, so a page below 1 is clamped to 1 and an
out-of-range page yields empty items; the view itself aborts with 404 when
`page > questions.pages and page > 1`. -/
def get_questions (s : Store) (page : Int) : Response × Store :=
  let total := s.questions.length
  let effPage := max page 1
  let items := (s.questions.drop ((effPage - 1).toNat * QUESTIONS_PER_PAGE)).take QUESTIONS_PER_PAGE
  let questions_list := items.map Question.format
  let category_list := s.categories.map Category.format
  if page > (pagesOf total : Int) ∧ page > 1 then
    (err404, s)
  else
    (⟨200, some (.jobj [("questions", .jarr questions_list),
                        ("categories", .jarr category_list),
                        ("current_category", .null),
                        ("success", .jb true),
                        ("total_questions", .jn (total : Int))])⟩, s)

/-- `GET /api/v1/categories/<category_id>/questions`. -/
def get_questions_by_category (s : Store) (category_id : Int) : Response × Store :=
  match s.categories.find? (fun c => c.id == category_id) with
  | none =>
    (⟨404, some (.jobj [("category_id", .jn category_id), ("success", .jb false),
                        ("status", .jn 404),
                        ("message", .js "The category specified in the URL doesn't exist. Please resubmit with a correct category id.")])⟩, s)
  | some _ =>
    let questions_list :=
      (s.questions.filter (fun q => q.category_id == category_id)).map Question.format
    (⟨200, some (.jobj [("questions", .jarr questions_list),
                        ("total_questions", .jn (questions_list.length : Int)),
                        ("current_category", .jn category_id),
                        ("success", .jb true)])⟩, s)

/-- `DELETE /api/v1/questions/<question_id>`.  `deleteErr` models the outcome
of the store-level `Question.delete`: `some e` is an `SQLAlchemyError` whose
`orig` prints as `e`, `none` is success. -/
def delete_question (s : Store) (question_id : Int) (deleteErr : Option String) :
    Response × Store :=
  match s.questions.find? (fun q => q.id == question_id) with
  | none =>
    (⟨404, some (.jobj [("question_id", .jn question_id), ("success", .jb false),
                        ("status", .jn 404),
                        ("message", .js "The question specified in the URL doesn't exist. Please resubmit with a correct question id")])⟩, s)
  | some _ =>
    match deleteErr with
    | some e =>
      (⟨422, some (.jobj [("question_id", .jn question_id), ("success", .jb false),
                          ("status", .jn 422), ("message", .js e)])⟩, s)
    | none =>
      (⟨204, none⟩, { s with questions := s.questions.filter (fun q => !(q.id == question_id)) })

/-- The record `Question(question=..., answer=..., category_id=..., difficulty=...)`
built by the creation endpoint before any store interaction: each field is the
body's value or `null` when absent. -/
structure NewQuestion where
  question : JVal
  answer : JVal
  category_id : JVal
  difficulty : JVal

/-- Builds the candidate record exactly as `post_new_question` does. -/
def buildNewQuestion (body : List (String × JVal)) : NewQuestion :=
  ⟨pyGetD body "question", pyGetD body "answer",
   pyGetD body "category_id", pyGetD body "difficulty"⟩

/-- `POST /api/v1/questions`.  `insertErr` models the outcome of the
store-level `Question.insert` on a candidate record: `some e` is an
`SQLAlchemyError` whose `orig` prints as `e`, `none` is success. -/
def post_new_question (body : List (String × JVal))
    (insertErr : NewQuestion → Option String) : Response :=
  match insertErr (buildNewQuestion body) with
  | some e =>
    ⟨422, some (.jobj [("question_input", .jobj body), ("success", .jb false),
                       ("status", .jn 422), ("message", .js e)])⟩
  | none =>
    ⟨201, some (.jobj [("question_input", .jobj body), ("success", .jb true),
                       ("status", .jn 201),
                       ("message", .js "The question was added to the database")])⟩

/-- All suffixes of a list, longest first (the empty suffix included). -/
def suffixes {α : Type} : List α → List (List α)
  | [] => [[]]
  | c :: t => (c :: t) :: suffixes t

/-- ASCII case folding of a code point, as the store's ILIKE compares. -/
def foldCode (n : Nat) : Nat := if 65 ≤ n ∧ n ≤ 90 then n + 32 else n

/-- The sequence of case-folded code points of a string. -/
def strCodes (s : String) : List Nat := s.data.map (fun c => foldCode c.toNat)

/-- Modelled from the spec: the SQL LIKE matcher of the external store engine
(the ORM model file is not under src/), over case-folded code points.  Code 37
is the wildcard matching any substring and code 95 matches any single
character; escape sequences are not modelled. -/
def likeMatch : List Nat → List Nat → Bool
  | [], t => t.isEmpty
  | p :: ps, t =>
    if p = 37 then (suffixes t).any (fun u => likeMatch ps u)
    else if p = 95 then
      match t with
      | [] => false
      | _ :: u => likeMatch ps u
    else
      match t with
      | [] => false
      | c :: u => p == c && likeMatch ps u

/-- `text ILIKE pattern`: SQL case-insensitive LIKE, as the search endpoint
calls it on the question text. -/
def ilike (text pattern : String) : Bool :=
  likeMatch (strCodes pattern) (strCodes text)

/-- Case-insensitive substring containment, the spec's description of the
search filter. -/
def containsCI (needle hay : String) : Bool :=
  decide (strCodes needle <:+: strCodes hay)

/-- `POST /api/v1/questions/search`.  A present non-null, non-string
`search_term` makes the string concatenation raise a TypeError, rendered by
the 500 handler. -/
def search_questions (s : Store) (body : List (String × JVal)) : Response × Store :=
  let search_term := getKey body "search_term"
  if isNoneVal search_term then (err400, s)
  else
    match search_term with
    | some (.js term) =>
      let question_list :=
        (s.questions.filter (fun q => ilike q.question ("%" ++ term ++ "%"))).map Question.format
      (⟨200, some (.jobj [("questions", .jarr question_list),
                          ("total_questions", .jn (question_list.length : Int)),
                          ("current_category", .null),
                          ("status", .jn 200)])⟩, s)
    | _ => (err500, s)

/-- Python `==` between an int id and a JSON value (`True == 1` holds). -/
def pyIntEq (n : Int) : JVal → Bool
  | .jn m => m == n
  | .jb b => (b && n == 1) || (!b && n == 0)
  | _ => false

/-- Python `id not in previous_questions`; `none` models a TypeError (missing
container protocol), which the 500 handler renders. -/
def pyNotIn (n : Int) (v : JVal) : Option Bool :=
  match v with
  | .jarr l => some (!(l.any (pyIntEq n)))
  | .jobj _ => some true
  | _ => none

/-- The list comprehension filtering the pool against `previous_questions`;
`none` propagates the TypeError of the first membership test (an empty pool
never raises). -/
def filterIds (ids : List Int) (prev : JVal) : Option (List Int) :=
  ids.foldr
    (fun i acc =>
      match acc with
      | none => none
      | some l =>
        match pyNotIn i prev with
        | none => none
        | some b => some (if b then i :: l else l))
    (some [])

/-- `random.choice` with the random draw `k` supplied externally: the element
at index `k % length`. -/
def choiceModel (l : List Int) (k : Nat) : Int :=
  l.getD (k % l.length) 0

/-- The response block of `play_quizzes` (source lines 197-214), applied once
the pool `ids` and the filtered pool `filtered_ids` are computed.  When the
chosen id has no row (impossible for ids drawn from the table), serializing
`None` raises, rendered by the 500 handler. -/
def quizRespond (s : Store) (ids filtered_ids : List Int) (k : Nat) : Response × Store :=
  let questions_per_play : Int := min 5 (ids.length : Int)
  if filtered_ids.isEmpty then
    (⟨200, some (.jobj [("question", .null),
                        ("questions_per_play", .jn questions_per_play),
                        ("success", .jb true), ("status", .jn 200)])⟩, s)
  else
    let question_id := choiceModel filtered_ids k
    match s.questions.find? (fun q => q.id == question_id) with
    | some q =>
      (⟨200, some (.jobj [("question", q.format),
                          ("questions_per_play", .jn questions_per_play),
                          ("success", .jb true), ("status", .jn 200)])⟩, s)
    | none => (err500, s)

/-- Whether the Python comparison `quiz_category_type == "click"` holds (a
non-string never equals a string). -/
def JVal.isClick : JVal → Bool
  | .js s => s == "click"
  | _ => false

/-- Whether a JSON value is `null` (a Python `None`). -/
def JVal.isNull : JVal → Bool
  | .null => true
  | _ => false

/-- `POST /api/v1/quizzes`.  The body's `quiz_category` is read with
`.get("type", None)` before any validation, so an absent, null or non-object
`quiz_category` raises an AttributeError, rendered by the 500 handler. -/
def play_quizzes (s : Store) (body : List (String × JVal)) (k : Nat) : Response × Store :=
  let previous_questions := getKey body "previous_questions"
  match getKey body "quiz_category" with
  | some (.jobj qc) =>
    let quiz_category_type := pyGetD qc "type"
    if isNoneVal previous_questions then (err422, s)
    else if quiz_category_type.isNull then (err422, s)
    else
      let prevV := (previous_questions).getD .null
      if quiz_category_type.isClick then
        let ids := s.questions.map (fun q => q.id)
        match filterIds ids prevV with
        | none => (err500, s)
        | some filtered_ids => quizRespond s ids filtered_ids k
      else
        match quiz_category_type with
        | .jobj qct =>
          let quiz_category_id := pyGetD qct "id"
          if quiz_category_id.isNull then (err422, s)
          else
            match quiz_category_id with
            | .jn cid =>
              match s.categories.find? (fun c => c.id == cid) with
              | none => (err422, s)
              | some _ =>
                let ids := (s.questions.filter (fun q => q.category_id == cid)).map (fun q => q.id)
                match filterIds ids prevV with
                | none => (err500, s)
                | some filtered_ids => quizRespond s ids filtered_ids k
            | _ => (err422, s)
        | _ => (err422, s)
  | _ => (err500, s)

/-- A quiz scope: `none` is the all-categories sentinel, `some cid` a
category-scoped game. -/
def quizBody (prev : List JVal) : Option Int → List (String × JVal)
  | none =>
    [("previous_questions", .jarr prev),
     ("quiz_category", .jobj [("type", .js "click")])]
  | some cid =>
    [("previous_questions", .jarr prev),
     ("quiz_category", .jobj [("type", .jobj [("id", .jn cid)])])]

/-- The pool of question ids a quiz scope selects, before filtering. -/
def poolIds (s : Store) : Option Int → List Int
  | none => s.questions.map (fun q => q.id)
  | some cid => (s.questions.filter (fun q => q.category_id == cid)).map (fun q => q.id)

/-! ### Sample data, mirroring the repository's test fixture -/

/-- The categories the test fixture inserts (truncated to two). -/
def sampleStore : Store :=
  ⟨[⟨1, "Animals"⟩, ⟨2, "Math"⟩],
   [⟨1, "2+2", "4", 2, 4⟩,
    ⟨2, "What country borders the US to the North?", "Canada", 2, 4⟩]⟩

/-! ### Helper lemmas -/

/-- `quizRespond` never touches the store. -/
lemma quizRespond_snd (s : Store) (ids filtered_ids : List Int) (k : Nat) :
    (quizRespond s ids filtered_ids k).2 = s := by
  unfold quizRespond
  dsimp only
  split
  · rfl
  · split <;> rfl

/-! ### Claims -/

/-- Claim C10: the read-only endpoints (GET categories, GET questions, GET
questions by category, POST search, POST quizzes) perform no insert or
delete: the store after the call equals the store before it, on success and
failure alike. -/
theorem read_endpoints_leave_store (s : Store) (page cid : Int)
    (body : List (String × JVal)) (k : Nat) :
    (get_categories s).2 = s ∧
    (get_questions s page).2 = s ∧
    (get_questions_by_category s cid).2 = s ∧
    (search_questions s body).2 = s ∧
    (play_quizzes s body k).2 = s := by
  refine ⟨rfl, ?_, ?_, ?_, ?_⟩
  · unfold get_questions; dsimp only; split <;> rfl
  · unfold get_questions_by_category; split <;> rfl
  · unfold search_questions; dsimp only
    split
    · rfl
    · split <;> rfl
  · unfold play_quizzes; dsimp only
    split
    · split
      · rfl
      · split
        · rfl
        · split
          · split
            · rfl
            · exact quizRespond_snd ..
          · split
            · split
              · rfl
              · split
                · split
                  · rfl
                  · split
                    · rfl
                    · exact quizRespond_snd ..
                · rfl
            · rfl
    · rfl

/-- Claim C8: question creation builds its record from exactly the four body
fields (absent ones becoming null), always attempts the insert, echoes the
body back as `question_input`, and renders a store-level failure as 422 with
the store's error text and a success as 201. -/
theorem post_new_question_contract (body : List (String × JVal))
    (ins : NewQuestion → Option String) :
    buildNewQuestion body =
      ⟨pyGetD body "question", pyGetD body "answer",
       pyGetD body "category_id", pyGetD body "difficulty"⟩ ∧
    (∀ e, ins (buildNewQuestion body) = some e →
      post_new_question body ins =
        ⟨422, some (.jobj [("question_input", .jobj body), ("success", .jb false),
                           ("status", .jn 422), ("message", .js e)])⟩) ∧
    (ins (buildNewQuestion body) = none →
      post_new_question body ins =
        ⟨201, some (.jobj [("question_input", .jobj body), ("success", .jb true),
                           ("status", .jn 201),
                           ("message", .js "The question was added to the database")])⟩) := by
  refine ⟨rfl, ?_, ?_⟩
  · intro e he
    unfold post_new_question
    rw [he]
  · intro he
    unfold post_new_question
    rw [he]

/-- Witness for C8 at a concrete body and an insert that reports a not-null
violation. -/
theorem post_new_question_contract_witness :
    post_new_question [("question", .js "2+2")] (fun nq => if nq.answer.isNull then some "null value in column answer" else none) =
      ⟨422, some (.jobj [("question_input", .jobj [("question", .js "2+2")]),
                         ("success", .jb false), ("status", .jn 422),
                         ("message", .js "null value in column answer")])⟩ :=
  (post_new_question_contract [("question", .js "2+2")]
    (fun nq => if nq.answer.isNull then some "null value in column answer" else none)).2.1
    "null value in column answer" rfl

/-- Claim C6: deleting an absent question id yields 404 with the store
unchanged; deleting a present one removes it and returns the empty 204
response, while a store-level failure yields 422 carrying the store's error
text; consequently deleting the same id twice yields 204 and then 404. -/
theorem delete_question_contract (s : Store) (qid : Int) (err : Option String) :
    (s.questions.find? (fun q => q.id == qid) = none →
      delete_question s qid err =
        (⟨404, some (.jobj [("question_id", .jn qid), ("success", .jb false),
                            ("status", .jn 404),
                            ("message", .js "The question specified in the URL doesn't exist. Please resubmit with a correct question id")])⟩, s)) ∧
    ((∃ q ∈ s.questions, q.id = qid) →
      (∀ e, err = some e →
        delete_question s qid err =
          (⟨422, some (.jobj [("question_id", .jn qid), ("success", .jb false),
                              ("status", .jn 422), ("message", .js e)])⟩, s)) ∧
      (err = none →
        delete_question s qid err =
          (⟨204, none⟩,
           { s with questions := s.questions.filter (fun q => !(q.id == qid)) }) ∧
        (delete_question (delete_question s qid err).2 qid err).1.status = 404)) := by
  constructor
  · intro h
    unfold delete_question
    rw [h]
  · rintro ⟨q, hq, hid⟩
    have hsome : (s.questions.find? (fun q => q.id == qid)).isSome :=
      List.find?_isSome.mpr ⟨q, hq, by simp [hid]⟩
    obtain ⟨q', hq'⟩ := Option.isSome_iff_exists.mp hsome
    constructor
    · intro e he
      unfold delete_question
      rw [hq', he]
    · intro he
      subst he
      have hdel : delete_question s qid none =
          (⟨204, none⟩,
           { s with questions := s.questions.filter (fun q => !(q.id == qid)) }) := by
        unfold delete_question
        rw [hq']
      refine ⟨hdel, ?_⟩
      rw [hdel]
      have hnone : ({ s with questions := s.questions.filter (fun q => !(q.id == qid))} : Store).questions.find? (fun q => q.id == qid) = none := by
        rw [List.find?_eq_none]
        intro x hx
        have := (List.mem_filter.mp hx).2
        simp only [Bool.not_eq_true'] at this
        simp [this]
      unfold delete_question
      rw [hnone]

/-- Witness for C6: deleting question 1 of the sample store twice yields 204
and then 404. -/
theorem delete_question_contract_witness :
    delete_question sampleStore 1 none =
      (⟨204, none⟩,
       { sampleStore with questions := sampleStore.questions.filter (fun q => !(q.id == 1)) }) ∧
    (delete_question (delete_question sampleStore 1 none).2 1 none).1.status = 404 :=
  ((delete_question_contract sampleStore 1 none).2
    ⟨⟨1, "2+2", "4", 2, 4⟩, by simp [sampleStore], rfl⟩).2 rfl

/-- Claim C5: the paginated question listing fails with 404 exactly when the
requested positive page exceeds the available pages and is greater than 1;
in particular page 1 on an empty store succeeds with an empty list and
`total_questions = 0`. -/
theorem get_questions_page_contract (s : Store) (page : Int) (hpage : 1 ≤ page) :
    ((get_questions s page).1.status =
      if (pagesOf s.questions.length : Int) < page ∧ 1 < page then 404 else 200) ∧
    (∀ cats : List Category,
      get_questions ⟨cats, []⟩ 1 =
        (⟨200, some (.jobj [("questions", .jarr []),
                            ("categories", .jarr (cats.map Category.format)),
                            ("current_category", .null),
                            ("success", .jb true),
                            ("total_questions", .jn 0)])⟩, ⟨cats, []⟩)) := by
  constructor
  · unfold get_questions
    dsimp only
    by_cases h : page > (pagesOf s.questions.length : Int) ∧ page > 1
    · rw [if_pos h, if_pos ⟨h.1, h.2⟩] <;> rfl
    · rw [if_neg h, if_neg (by tauto)] <;> rfl
  · intro cats
    unfold get_questions
    norm_num [pagesOf, QUESTIONS_PER_PAGE]

/-- Witness for C5: page 2 of the sample store (two questions, one page) is
out of range, hence 404. -/
theorem get_questions_page_contract_witness :
    (get_questions sampleStore 2).1.status =
      if (pagesOf sampleStore.questions.length : Int) < 2 ∧ (1 : Int) < 2 then 404 else 200 :=
  (get_questions_page_contract sampleStore 2 (by norm_num)).1

/-- The comprehension over a plain JSON array never raises and is a filter. -/
lemma filterIds_jarr (ids : List Int) (l : List JVal) :
    filterIds ids (.jarr l) = some (ids.filter (fun i => !(l.any (pyIntEq i)))) := by
  induction ids with
  | nil => rfl
  | cons i t ih =>
    simp only [filterIds, List.foldr_cons] at ih ⊢
    rw [ih]
    simp only [pyNotIn, List.filter_cons]

/-- Membership in a JSON array of integer ids is list membership. -/
lemma pyAny_map_jn (prev : List Int) (i : Int) :
    ((prev.map JVal.jn).any (pyIntEq i) = true) ↔ i ∈ prev := by
  simp only [List.any_eq_true, List.mem_map]
  constructor
  · rintro ⟨v, ⟨a, ha, rfl⟩, hv⟩
    simp only [pyIntEq, beq_iff_eq] at hv
    exact hv ▸ ha
  · intro h
    exact ⟨.jn i, ⟨i, h, rfl⟩, by simp [pyIntEq]⟩

/-- The filter against a JSON array of ids equals the set-difference filter. -/
lemma filter_pyAny_eq (pool : List Int) (prev : List Int) :
    pool.filter (fun i => !((prev.map JVal.jn).any (pyIntEq i))) =
    pool.filter (fun i => decide (i ∉ prev)) := by
  apply List.filter_congr
  intro i _
  by_cases h : i ∈ prev
  · simp [h, (pyAny_map_jn prev i).mpr h]
  · have hfalse : (prev.map JVal.jn).any (pyIntEq i) = false := by
      rw [Bool.eq_false_iff]
      intro hc
      exact h ((pyAny_map_jn prev i).mp hc)
    simp [hfalse, h]

/-- The modelled `random.choice` picks an element of its nonempty list. -/
lemma choiceModel_mem (l : List Int) (k : Nat) (h : l ≠ []) : choiceModel l k ∈ l := by
  have hlen : 0 < l.length := List.length_pos.mpr h
  have hk : k % l.length < l.length := Nat.mod_lt _ hlen
  unfold choiceModel
  rw [List.getD_eq_getElem?_getD, List.getElem?_eq_getElem hk]
  exact List.getElem_mem hk

/-- Every id of a quiz pool is the id of some stored question. -/
lemma poolIds_mem (s : Store) (scope : Option Int) (i : Int) (h : i ∈ poolIds s scope) :
    ∃ q ∈ s.questions, q.id = i := by
  cases scope with
  | none =>
    obtain ⟨q, hq, rfl⟩ := List.mem_map.mp h
    exact ⟨q, hq, rfl⟩
  | some cid =>
    obtain ⟨q, hq, rfl⟩ := List.mem_map.mp h
    exact ⟨q, (List.mem_filter.mp hq).1, rfl⟩

/-- A question id present in the table is found by the lookup query, and the
found row carries that id. -/
lemma find?_question_id (qs : List Question) (i : Int) (h : ∃ q ∈ qs, q.id = i) :
    ∃ q, qs.find? (fun q => q.id == i) = some q ∧ q.id = i := by
  obtain ⟨q, hq, hid⟩ := h
  have hs : (qs.find? (fun q => q.id == i)).isSome :=
    List.find?_isSome.mpr ⟨q, hq, by simp [hid]⟩
  obtain ⟨q', hq'⟩ := Option.isSome_iff_exists.mp hs
  refine ⟨q', hq', ?_⟩
  simpa using List.find?_some hq'

/-- Evaluating `play_quizzes` on a well-formed quiz request: it computes the
scope's pool, filters out the previously seen ids, and hands both to the
response block. -/
lemma play_quizzes_quizBody (s : Store) (prev : List Int) (scope : Option Int) (k : Nat)
    (hscope : ∀ cid, scope = some cid → ∃ c ∈ s.categories, c.id = cid) :
    play_quizzes s (quizBody (prev.map JVal.jn) scope) k =
      quizRespond s (poolIds s scope)
        ((poolIds s scope).filter (fun i => decide (i ∉ prev))) k := by
  cases scope with
  | none =>
    have h1 : play_quizzes s (quizBody (prev.map JVal.jn) none) k =
        match filterIds (s.questions.map (fun q => q.id)) (.jarr (prev.map JVal.jn)) with
        | none => (err500, s)
        | some filtered_ids =>
          quizRespond s (s.questions.map (fun q => q.id)) filtered_ids k := rfl
    rw [h1, filterIds_jarr, filter_pyAny_eq]
    rfl
  | some cid =>
    obtain ⟨c, hc, hcid⟩ := hscope cid rfl
    have hfind : (s.categories.find? (fun c => c.id == cid)).isSome :=
      List.find?_isSome.mpr ⟨c, hc, by simp [hcid]⟩
    obtain ⟨c', hc'⟩ := Option.isSome_iff_exists.mp hfind
    have h1 : play_quizzes s (quizBody (prev.map JVal.jn) (some cid)) k =
        (match s.categories.find? (fun c => c.id == cid) with
         | none => (err422, s)
         | some _ =>
           match filterIds ((s.questions.filter (fun q => q.category_id == cid)).map (fun q => q.id))
               (.jarr (prev.map JVal.jn)) with
           | none => (err500, s)
           | some filtered_ids =>
             quizRespond s ((s.questions.filter (fun q => q.category_id == cid)).map (fun q => q.id))
               filtered_ids k) := rfl
    rw [h1, hc', filterIds_jarr, filter_pyAny_eq]
    rfl

/-- When the filtered pool is empty, the response block signals the end of
the quiz. -/
lemma quizRespond_empty (s : Store) (ids : List Int) (k : Nat) :
    quizRespond s ids [] k =
      (⟨200, some (.jobj [("question", .null),
                          ("questions_per_play", .jn (min 5 (ids.length : Int))),
                          ("success", .jb true), ("status", .jn 200)])⟩, s) := rfl

/-- When the filtered pool is nonempty and its ids come from the table, the
response block serializes a stored question whose id is in the filtered
pool. -/
lemma quizRespond_nonempty (s : Store) (ids rem : List Int) (k : Nat)
    (hne : rem ≠ []) (hmem : ∀ i ∈ rem, ∃ q ∈ s.questions, q.id = i) :
    ∃ q : Question,
      quizRespond s ids rem k =
        (⟨200, some (.jobj [("question", q.format),
                            ("questions_per_play", .jn (min 5 (ids.length : Int))),
                            ("success", .jb true), ("status", .jn 200)])⟩, s) ∧
      q.id ∈ rem := by
  have hchoice : choiceModel rem k ∈ rem := choiceModel_mem rem k hne
  obtain ⟨q, hq, hqid⟩ := find?_question_id s.questions (choiceModel rem k) (hmem _ hchoice)
  have hie : rem.isEmpty = false := by
    cases rem with
    | nil => exact absurd rfl hne
    | cons a t => rfl
  refine ⟨q, ?_, hqid ▸ hchoice⟩
  unfold quizRespond
  rw [hie]
  dsimp only
  rw [hq]
  rfl

/-- Claim C1: quiz play on a well-formed request: when every pool id has been
seen the response carries a null question with success; otherwise the
serialized question's id belongs to the remaining pool and is never one of
`previous_questions`. -/
theorem play_quizzes_selection (s : Store) (prev : List Int) (scope : Option Int) (k : Nat)
    (hscope : ∀ cid, scope = some cid → ∃ c ∈ s.categories, c.id = cid) :
    ((poolIds s scope).filter (fun i => decide (i ∉ prev)) = [] →
      play_quizzes s (quizBody (prev.map JVal.jn) scope) k =
        (⟨200, some (.jobj [("question", .null),
                            ("questions_per_play", .jn (min 5 ((poolIds s scope).length : Int))),
                            ("success", .jb true), ("status", .jn 200)])⟩, s)) ∧
    ((poolIds s scope).filter (fun i => decide (i ∉ prev)) ≠ [] →
      ∃ q : Question,
        play_quizzes s (quizBody (prev.map JVal.jn) scope) k =
          (⟨200, some (.jobj [("question", q.format),
                              ("questions_per_play", .jn (min 5 ((poolIds s scope).length : Int))),
                              ("success", .jb true), ("status", .jn 200)])⟩, s) ∧
        q.id ∈ (poolIds s scope).filter (fun i => decide (i ∉ prev)) ∧
        q.id ∉ prev) := by
  rw [play_quizzes_quizBody s prev scope k hscope]
  constructor
  · intro hempty
    rw [hempty]
    exact quizRespond_empty ..
  · intro hne
    obtain ⟨q, hresp, hqmem⟩ :=
      quizRespond_nonempty s (poolIds s scope)
        ((poolIds s scope).filter (fun i => decide (i ∉ prev))) k hne
        (fun i hi => poolIds_mem s scope i (List.mem_filter.mp hi).1)
    refine ⟨q, hresp, hqmem, ?_⟩
    have := (List.mem_filter.mp hqmem).2
    simpa using this

/-- Witness for C1: category 2 of the sample store with question 1 already
seen: the returned question is id 2, the only remaining one. -/
theorem play_quizzes_selection_witness :
    (poolIds sampleStore (some 2)).filter (fun i => decide (i ∉ [(1 : Int)])) ≠ [] ∧
    ∃ q : Question,
      play_quizzes sampleStore (quizBody ([(1 : Int)].map JVal.jn) (some 2)) 0 =
        (⟨200, some (.jobj [("question", q.format),
                            ("questions_per_play", .jn (min 5 ((poolIds sampleStore (some 2)).length : Int))),
                            ("success", .jb true), ("status", .jn 200)])⟩, sampleStore) ∧
      q.id ∈ (poolIds sampleStore (some 2)).filter (fun i => decide (i ∉ [(1 : Int)])) ∧
      q.id ∉ [(1 : Int)] := by
  refine ⟨by decide, ?_⟩
  exact (play_quizzes_selection sampleStore [1] (some 2) 0
    (fun cid h => by cases h; exact ⟨⟨2, "Math"⟩, by simp [sampleStore], rfl⟩)).2
    (by decide)

/-- Claim C2: every response to a well-formed quiz request succeeds and
carries `questions_per_play = min(5, pool size)`, computed from the scope's
unfiltered pool, independently of how many ids were already seen. -/
theorem play_quizzes_questions_per_play (s : Store) (prev : List Int) (scope : Option Int)
    (k : Nat) (hscope : ∀ cid, scope = some cid → ∃ c ∈ s.categories, c.id = cid) :
    (play_quizzes s (quizBody (prev.map JVal.jn) scope) k).1.status = 200 ∧
    respField (play_quizzes s (quizBody (prev.map JVal.jn) scope) k).1 "questions_per_play" =
      some (.jn (min 5 ((poolIds s scope).length : Int))) := by
  rw [play_quizzes_quizBody s prev scope k hscope]
  by_cases hempty : (poolIds s scope).filter (fun i => decide (i ∉ prev)) = []
  · rw [hempty, quizRespond_empty]
    exact ⟨rfl, rfl⟩
  · obtain ⟨q, hresp, _⟩ :=
      quizRespond_nonempty s (poolIds s scope)
        ((poolIds s scope).filter (fun i => decide (i ∉ prev))) k hempty
        (fun i hi => poolIds_mem s scope i (List.mem_filter.mp hi).1)
    rw [hresp]
    exact ⟨rfl, rfl⟩

/-- Witness for C2: the all-categories scope of the sample store with both
questions already seen still reports `questions_per_play = 2`. -/
theorem play_quizzes_questions_per_play_witness :
    (play_quizzes sampleStore (quizBody ([(1 : Int), 2].map JVal.jn) none) 3).1.status = 200 ∧
    respField (play_quizzes sampleStore (quizBody ([(1 : Int), 2].map JVal.jn) none) 3).1
        "questions_per_play" =
      some (.jn (min 5 ((poolIds sampleStore none).length : Int))) :=
  play_quizzes_questions_per_play sampleStore [1, 2] none 3
    (fun cid h => by cases h)

/-- Counterexample to C3 as stated: a body with neither `previous_questions`
nor `quiz_category` makes the attribute access on the absent `quiz_category`
raise, and the endpoint answers 500, not 422. -/
theorem play_quizzes_missing_prev_counterexample :
    (play_quizzes sampleStore [] 0).1.status = 500 ∧
    (play_quizzes sampleStore [] 0).1.status ≠ 422 :=
  ⟨rfl, by decide⟩

/-- Claim C3 (amended): for every body in which `previous_questions` is
absent or null while `quiz_category` is present with an object value, the
endpoint fails with 422 — the presence check on `previous_questions` fires
before any check of `quiz_category.type`, whether or not `type` is there. -/
theorem play_quizzes_missing_prev (s : Store) (body qc : List (String × JVal)) (k : Nat)
    (hqc : getKey body "quiz_category" = some (.jobj qc))
    (hprev : isNoneVal (getKey body "previous_questions") = true) :
    play_quizzes s body k = (err422, s) := by
  unfold play_quizzes
  rw [hqc]
  dsimp only
  rw [hprev]
  rfl

/-- Witness for the amended C3: `quiz_category` present (even with a valid
`type`), `previous_questions` absent: 422. -/
theorem play_quizzes_missing_prev_witness :
    play_quizzes sampleStore [("quiz_category", .jobj [("type", .js "click")])] 0 =
      (err422, sampleStore) :=
  play_quizzes_missing_prev sampleStore
    [("quiz_category", .jobj [("type", .js "click")])] [("type", .js "click")] 0 rfl rfl

/-- The four category-scope checks of the quiz endpoint, phrased as the
condition under which at least one of them fails: the `type` value is not an
object, or it lacks an `id` (absent or null), or the id is not an integer,
or no category with that id exists. -/
def catScopeViolation (s : Store) : JVal → Prop
  | .jobj qct =>
    match pyGetD qct "id" with
    | .null => True
    | .jn cid => ¬ ∃ c ∈ s.categories, c.id = cid
    | _ => True
  | _ => True

/-- Claim C4: on a request whose `quiz_category.type` is present and not the
all-categories sentinel, the endpoint answers 422 exactly on the four listed
violations, and computes the category-scoped pool only when all four checks
pass. -/
theorem play_quizzes_category_validation (s : Store) (body qc : List (String × JVal))
    (tv : JVal) (prev : List JVal) (k : Nat)
    (hqc : getKey body "quiz_category" = some (.jobj qc))
    (hprev : getKey body "previous_questions" = some (.jarr prev))
    (htv : pyGetD qc "type" = tv)
    (hnotnull : tv.isNull = false) (hnotclick : tv.isClick = false) :
    (catScopeViolation s tv → play_quizzes s body k = (err422, s)) ∧
    (∀ qct cid, tv = .jobj qct → pyGetD qct "id" = .jn cid →
      (∃ c ∈ s.categories, c.id = cid) →
      play_quizzes s body k =
        quizRespond s (poolIds s (some cid))
          ((poolIds s (some cid)).filter (fun i => !(prev.any (pyIntEq i)))) k) := by
  subst htv
  constructor
  · intro hviol
    unfold play_quizzes
    rw [hqc]
    dsimp only
    rw [hprev]
    dsimp only [isNoneVal, Option.getD]
    rw [hnotnull, hnotclick]
    simp only [Bool.false_eq_true, if_false]
    cases hT : pyGetD qc "type" with
    | jobj qct =>
      rw [hT] at hviol
      dsimp only [catScopeViolation] at hviol
      dsimp only
      cases hid : pyGetD qct "id" with
      | null => rfl
      | jn cid =>
        rw [hid] at hviol
        dsimp only [JVal.isNull]
        simp only [Bool.false_eq_true, if_false]
        have hnone : s.categories.find? (fun c => c.id == cid) = none := by
          rw [List.find?_eq_none]
          intro c hc hbeq
          exact hviol ⟨c, hc, by simpa using hbeq⟩
        rw [hnone]
      | jb b => rfl
      | js str => rfl
      | jarr l => rfl
      | jobj o => rfl
    | null => rfl
    | jb b => rfl
    | jn n => rfl
    | js str => rfl
    | jarr l => rfl
  · intro qct cid heq hid hex
    unfold play_quizzes
    rw [hqc]
    dsimp only
    rw [hprev]
    dsimp only [isNoneVal, Option.getD]
    rw [hnotnull, hnotclick]
    simp only [Bool.false_eq_true, if_false]
    rw [heq]
    dsimp only
    rw [hid]
    dsimp only [JVal.isNull]
    simp only [Bool.false_eq_true, if_false]
    have hfind : (s.categories.find? (fun c => c.id == cid)).isSome :=
      List.find?_isSome.mpr ⟨hex.choose, hex.choose_spec.1, by simp [hex.choose_spec.2]⟩
    obtain ⟨c', hc'⟩ := Option.isSome_iff_exists.mp hfind
    rw [hc', filterIds_jarr]
    rfl

/-- Witness for C4: an unknown category id (100) under `quiz_category.type.id`
yields 422 on the sample store. -/
theorem play_quizzes_category_validation_witness :
    play_quizzes sampleStore
      [("previous_questions", .jarr [.jn 1]),
       ("quiz_category", .jobj [("type", .jobj [("id", .jn 100)])])] 0 =
      (err422, sampleStore) :=
  (play_quizzes_category_validation sampleStore
    [("previous_questions", .jarr [.jn 1]),
     ("quiz_category", .jobj [("type", .jobj [("id", .jn 100)])])]
    [("type", .jobj [("id", .jn 100)])]
    (.jobj [("id", .jn 100)]) [.jn 1] 0 rfl rfl rfl rfl rfl).1
    (show ¬∃ c ∈ sampleStore.categories, c.id = 100 by decide)

/-! ### The search filter: LIKE patterns versus substring containment -/

/-- Membership in `suffixes` is the suffix relation. -/
lemma mem_suffixes {α : Type} (t l : List α) : t ∈ suffixes l ↔ t <:+ l := by
  induction l with
  | nil => simp [suffixes]
  | cons a l ih => simp [suffixes, List.suffix_cons_iff, ih]

/-- A wildcard-free pattern followed by the `%` wildcard matches exactly the
texts it is a prefix of. -/
lemma likeMatch_literal (p : List Nat) (hw : ∀ c ∈ p, c ≠ 37 ∧ c ≠ 95) (t : List Nat) :
    likeMatch (p ++ [37]) t = true ↔ p <+: t := by
  induction p generalizing t with
  | nil =>
    constructor
    · intro _
      exact ⟨t, rfl⟩
    · intro _
      show (suffixes t).any (fun u => likeMatch [] u) = true
      exact List.any_eq_true.mpr ⟨[], (mem_suffixes [] t).mpr ⟨t, by simp⟩, rfl⟩
  | cons c p ih =>
    obtain ⟨hc37, hc95⟩ := hw c (by simp)
    have hwp : ∀ d ∈ p, d ≠ 37 ∧ d ≠ 95 := fun d hd => hw d (by simp [hd])
    cases t with
    | nil =>
      simp only [List.cons_append, likeMatch, if_neg hc37, if_neg hc95]
      simp
    | cons d u =>
      simp only [List.cons_append, likeMatch, if_neg hc37, if_neg hc95]
      rw [Bool.and_eq_true, beq_iff_eq]
      simp only [List.append_eq]
      rw [ih hwp u]
      simp [List.cons_prefix_cons]

/-- A wildcard-free pattern between two `%` wildcards matches exactly the
texts containing it. -/
lemma likeMatch_sandwich (p : List Nat) (hw : ∀ c ∈ p, c ≠ 37 ∧ c ≠ 95) (t : List Nat) :
    likeMatch (37 :: (p ++ [37])) t = true ↔ p <:+: t := by
  show (suffixes t).any (fun u => likeMatch (p ++ [37]) u) = true ↔ _
  rw [List.any_eq_true]
  constructor
  · rintro ⟨u, hu, hm⟩
    exact List.infix_iff_prefix_suffix.mpr
      ⟨u, (likeMatch_literal p hw u).mp hm, (mem_suffixes u t).mp hu⟩
  · intro hinf
    obtain ⟨u, hpu, hut⟩ := List.infix_iff_prefix_suffix.mp hinf
    exact ⟨u, (mem_suffixes u t).mpr hut, (likeMatch_literal p hw u).mpr hpu⟩

/-- Case folding moves nothing onto the `%` code point. -/
lemma foldCode_eq_37 (n : Nat) : foldCode n = 37 ↔ n = 37 := by
  unfold foldCode
  split <;> omega

/-- Case folding moves nothing onto the `_` code point. -/
lemma foldCode_eq_95 (n : Nat) : foldCode n = 95 ↔ n = 95 := by
  unfold foldCode
  split <;> omega

/-- A term without LIKE metacharacters folds to a wildcard-free code list. -/
lemma strCodes_wildcardFree (term : String) (h37 : '%' ∉ term.data) (h95 : '_' ∉ term.data) :
    ∀ c ∈ strCodes term, c ≠ 37 ∧ c ≠ 95 := by
  intro c hc
  obtain ⟨ch, hch, rfl⟩ := List.mem_map.mp hc
  constructor
  · intro heq
    rw [foldCode_eq_37] at heq
    have hch' : ch = '%' := by
      have h2 := congrArg Char.ofNat heq
      rwa [Char.ofNat_toNat, show Char.ofNat 37 = '%' by decide] at h2
    exact h37 (hch' ▸ hch)
  · intro heq
    rw [foldCode_eq_95] at heq
    have hch' : ch = '_' := by
      have h2 := congrArg Char.ofNat heq
      rwa [Char.ofNat_toNat, show Char.ofNat 95 = '_' by decide] at h2
    exact h95 (hch' ▸ hch)

/-- For a search term without LIKE metacharacters, the pattern the endpoint
builds matches exactly the texts containing the term case-insensitively. -/
lemma ilike_contains (q term : String) (h37 : '%' ∉ term.data) (h95 : '_' ∉ term.data) :
    ilike q ("%" ++ term ++ "%") = containsCI term q := by
  unfold ilike containsCI
  have hdata : strCodes ("%" ++ term ++ "%") = 37 :: (strCodes term ++ [37]) := by
    simp [strCodes, foldCode]
  rw [hdata]
  by_cases hinf : strCodes term <:+: strCodes q
  · rw [(likeMatch_sandwich (strCodes term) (strCodes_wildcardFree term h37 h95)
      (strCodes q)).mpr hinf]
    exact (decide_eq_true hinf).symm
  · have hl : likeMatch (37 :: (strCodes term ++ [37])) (strCodes q) = false :=
      Bool.eq_false_iff.mpr fun hc =>
        hinf ((likeMatch_sandwich (strCodes term) (strCodes_wildcardFree term h37 h95)
          (strCodes q)).mp hc)
    rw [hl, decide_eq_false hinf]

/-- Counterexample to C7 as stated: the search term is spliced into an ILIKE
pattern, so the term consisting of the single wildcard percent character
matches the question text abc, which does not contain it as a substring. -/
theorem search_questions_counterexample :
    respField (search_questions ⟨[], [⟨7, "abc", "x", 1, 1⟩]⟩
        [("search_term", .js "%")]).1 "questions" =
      some (.jarr [Question.format ⟨7, "abc", "x", 1, 1⟩]) ∧
    containsCI "%" "abc" = false :=
  ⟨rfl, rfl⟩

/-- Claim C7 (amended): a missing or null `search_term` yields 400 with the
store untouched; a string term free of the LIKE metacharacters (percent and
underscore) returns exactly the questions whose text contains it
case-insensitively, with `current_category = null` and `total_questions` the
length of the returned list. -/
theorem search_questions_contract (s : Store) (body : List (String × JVal)) :
    (isNoneVal (getKey body "search_term") = true →
      search_questions s body = (err400, s)) ∧
    (∀ term : String, getKey body "search_term" = some (.js term) →
      '%' ∉ term.data → '_' ∉ term.data →
      search_questions s body =
        (⟨200, some (.jobj
          [("questions", .jarr
             ((s.questions.filter (fun q => containsCI term q.question)).map Question.format)),
           ("total_questions", .jn
             ((((s.questions.filter (fun q => containsCI term q.question)).map Question.format).length : Nat) : Int)),
           ("current_category", .null),
           ("status", .jn 200)])⟩, s)) := by
  constructor
  · intro h
    unfold search_questions
    dsimp only
    rw [h]
    rfl
  · intro term heq h37 h95
    unfold search_questions
    dsimp only
    rw [heq]
    dsimp only [isNoneVal]
    have hfilter : s.questions.filter (fun q => ilike q.question ("%" ++ term ++ "%")) =
        s.questions.filter (fun q => containsCI term q.question) :=
      List.filter_congr (fun q _ => ilike_contains q.question term h37 h95)
    rw [hfilter]
    rfl

/-- Witness for C7: searching the sample store for country returns the one
matching question. -/
theorem search_questions_contract_witness :
    search_questions sampleStore [("search_term", .js "country")] =
      (⟨200, some (.jobj
        [("questions", .jarr
           ((sampleStore.questions.filter (fun q => containsCI "country" q.question)).map Question.format)),
         ("total_questions", .jn
           ((((sampleStore.questions.filter (fun q => containsCI "country" q.question)).map Question.format).length : Nat) : Int)),
         ("current_category", .null),
         ("status", .jn 200)])⟩, sampleStore) :=
  (search_questions_contract sampleStore [("search_term", .js "country")]).2
    "country" rfl (by decide) (by decide)

/-! ### Response envelopes -/

/-- The uniform envelope: a boolean `success` field, plus `status` and
`message` on every failure. -/
def envelopeOK (r : Response) : Prop :=
  (∃ b, respField r "success" = some (.jb b)) ∧
  (400 ≤ r.status →
    (∃ n, respField r "status" = some (.jn n)) ∧
    (∃ m, respField r "message" = some (.js m)))

/-- The generic 400 rendering satisfies the envelope. -/
lemma envelopeOK_err400 : envelopeOK err400 :=
  ⟨⟨false, rfl⟩, fun _ => ⟨⟨400, rfl⟩, ⟨badRequestDescription, rfl⟩⟩⟩

/-- The generic 404 rendering satisfies the envelope. -/
lemma envelopeOK_err404 : envelopeOK err404 :=
  ⟨⟨false, rfl⟩, fun _ => ⟨⟨404, rfl⟩, ⟨notFoundDescription, rfl⟩⟩⟩

/-- The generic 422 rendering satisfies the envelope. -/
lemma envelopeOK_err422 : envelopeOK err422 :=
  ⟨⟨false, rfl⟩, fun _ =>
    ⟨⟨422, rfl⟩,
     ⟨"The json that was sent did not include a proper field. Please refer to documentation.",
      rfl⟩⟩⟩

/-- The generic 500 rendering satisfies the envelope. -/
lemma envelopeOK_err500 : envelopeOK err500 :=
  ⟨⟨false, rfl⟩, fun _ => ⟨⟨500, rfl⟩, ⟨internalErrorDescription, rfl⟩⟩⟩

/-- Both quiz success responses satisfy the envelope. -/
lemma envelopeOK_quizRespond (s : Store) (ids rem : List Int) (k : Nat) :
    envelopeOK (quizRespond s ids rem k).1 := by
  unfold quizRespond
  dsimp only
  split
  · exact ⟨⟨true, rfl⟩, fun h => by simp at h⟩
  · split
    · exact ⟨⟨true, rfl⟩, fun h => by simp at h⟩
    · exact envelopeOK_err500

/-- Every quiz response satisfies the envelope. -/
lemma envelopeOK_play (s : Store) (body : List (String × JVal)) (k : Nat) :
    envelopeOK (play_quizzes s body k).1 := by
  unfold play_quizzes
  dsimp only
  split
  · split
    · exact envelopeOK_err422
    · split
      · exact envelopeOK_err422
      · split
        · split
          · exact envelopeOK_err500
          · exact envelopeOK_quizRespond ..
        · split
          · split
            · exact envelopeOK_err422
            · split
              · split
                · exact envelopeOK_err422
                · split
                  · exact envelopeOK_err500
                  · exact envelopeOK_quizRespond ..
              · exact envelopeOK_err422
          · exact envelopeOK_err422
  · exact envelopeOK_err500

/-- Counterexample to C9 as stated: the successful search response carries no
`success` field at all. -/
theorem envelope_counterexample :
    (search_questions sampleStore [("search_term", .js "a")]).1.status = 200 ∧
    respField (search_questions sampleStore [("search_term", .js "a")]).1 "success" = none :=
  ⟨rfl, rfl⟩

/-- Claim C9 (amended): every endpoint's JSON response carries a boolean
`success` and every failure response also carries `status` and `message` —
except the successful search response, which carries `status` but no
`success` field. -/
theorem envelope_uniformity (s : Store) (page cid qid : Int) (err : Option String)
    (body : List (String × JVal)) (ins : NewQuestion → Option String) (k : Nat) :
    envelopeOK (get_categories s).1 ∧
    envelopeOK (get_questions s page).1 ∧
    envelopeOK (get_questions_by_category s cid).1 ∧
    ((delete_question s qid err).1.body ≠ none → envelopeOK (delete_question s qid err).1) ∧
    envelopeOK (post_new_question body ins) ∧
    ((search_questions s body).1.status ≠ 200 → envelopeOK (search_questions s body).1) ∧
    ((search_questions s body).1.status = 200 →
      respField (search_questions s body).1 "success" = none) ∧
    envelopeOK (play_quizzes s body k).1 := by
  refine ⟨?_, ?_, ?_, ?_, ?_, ?_, ?_, envelopeOK_play s body k⟩
  · exact ⟨⟨true, rfl⟩, fun h => by simp [get_categories] at h⟩
  · unfold get_questions
    dsimp only
    split
    · exact envelopeOK_err404
    · exact ⟨⟨true, rfl⟩, fun h => by simp at h⟩
  · unfold get_questions_by_category
    split
    · exact ⟨⟨false, rfl⟩, fun _ =>
        ⟨⟨404, rfl⟩,
         ⟨"The category specified in the URL doesn't exist. Please resubmit with a correct category id.",
          rfl⟩⟩⟩
    · exact ⟨⟨true, rfl⟩, fun h => by simp at h⟩
  · unfold delete_question
    split
    · intro _
      exact ⟨⟨false, rfl⟩, fun _ =>
        ⟨⟨404, rfl⟩,
         ⟨"The question specified in the URL doesn't exist. Please resubmit with a correct question id",
          rfl⟩⟩⟩
    · split
      · intro _
        exact ⟨⟨false, rfl⟩, fun _ => ⟨⟨422, rfl⟩, ⟨_, rfl⟩⟩⟩
      · intro h
        exact absurd rfl h
  · unfold post_new_question
    split
    · exact ⟨⟨false, rfl⟩, fun _ => ⟨⟨422, rfl⟩, ⟨_, rfl⟩⟩⟩
    · exact ⟨⟨true, rfl⟩, fun h => by simp at h⟩
  · unfold search_questions
    dsimp only
    split
    · intro _
      exact envelopeOK_err400
    · split
      · intro h
        exact absurd rfl h
      · intro _
        exact envelopeOK_err500
  · unfold search_questions
    dsimp only
    split
    · intro h
      dsimp only at h
      exact absurd h (by decide)
    · split
      · intro _
        rfl
      · intro h
        dsimp only at h
        exact absurd h (by decide)

/-- Witness for C9: the envelope of the not-found deletion response on an
empty store. -/
theorem envelope_uniformity_witness :
    envelopeOK (delete_question ⟨[], []⟩ 3 none).1 :=
  (envelope_uniformity ⟨[], []⟩ 1 1 3 none [] (fun _ => none) 0).2.2.2.1
    (by rw [show delete_question ⟨[], []⟩ 3 none =
      (⟨404, some (.jobj [("question_id", .jn 3), ("success", .jb false),
                          ("status", .jn 404),
                          ("message", .js "The question specified in the URL doesn't exist. Please resubmit with a correct question id")])⟩,
       (⟨[], []⟩ : Store)) from rfl]; simp)

end Trivia
